import Mathlib

set_option maxRecDepth 8000

/-!
Verification development for the binance_wcc_tradingview webhook trade executor
(src/app.py, src/trade_notifier.py, src/config.py).

The Python source is shallowly embedded: each decision-making fragment of the
program becomes an executable Lean definition over exact rationals (Python
floats are idealized as rationals, with Python round() modeled as exact
round-half-to-even on the decimal scale, and int() as truncation toward zero).
External effects (the exchange REST API, the shared trades dict, the clock)
enter as explicit parameters holding the values the program would have read.
-/

/- Python int() applied to a float truncates toward zero. -/
def pyInt (x : ℚ) : ℤ :=
  if 0 ≤ x then ⌊x⌋ else ⌈x⌉

/- Round-half-to-even of a rational to an integer, the tie-breaking rule of
Python's built-in round(). -/
def roundHalfEven (x : ℚ) : ℤ :=
  let n := ⌊x⌋
  let f := x - (n : ℚ)
  if f < 1 / 2 then n
  else if 1 / 2 < f then n + 1
  else if 2 ∣ n then n else n + 1

/- Python round(x, k): round-half-to-even at the k-th decimal place. -/
def pyRound (x : ℚ) (k : ℕ) : ℚ :=
  ((roundHalfEven (x * 10 ^ k) : ℤ) : ℚ) / 10 ^ k

/- Python str.strip(): drop whitespace from both ends. -/
def pyStrip (cs : List Char) : List Char :=
  ((cs.dropWhile Char.isWhitespace).reverse.dropWhile Char.isWhitespace).reverse

def pySplitOnAux (sep : Char) : List Char → List Char → List (List Char)
  | [], acc => [acc.reverse]
  | c :: rest, acc =>
    if c = sep then acc.reverse :: pySplitOnAux sep rest []
    else pySplitOnAux sep rest (c :: acc)

/- Python str.split(sep) for a one-character separator. -/
def pySplitOn (sep : Char) (cs : List Char) : List (List Char) :=
  pySplitOnAux sep cs []

def parseDigitsAux : List Char → ℕ → Option ℕ
  | [], acc => some acc
  | c :: rest, acc =>
    if c.isDigit then parseDigitsAux rest (acc * 10 + (c.toNat - 48)) else none

def parseDigits (cs : List Char) : Option ℕ :=
  match cs with
  | [] => none
  | _ => parseDigitsAux cs 0

/- Embedding of Python float() restricted to plain decimal literals: optional
sign, an integer part, and an optional fractional part. Anything outside this
form is a parse failure (Python: ValueError). The webhook payloads the program
consumes carry prices in exactly this form. -/
def parseDecimal (s : String) : Option ℚ :=
  let cs := pyStrip s.toList
  let signAndBody : ℚ × List Char :=
    match cs with
    | '-' :: rest => (-1, rest)
    | '+' :: rest => (1, rest)
    | _ => (1, cs)
  match pySplitOn '.' signAndBody.2 with
  | [w] => (parseDigits w).map (fun n => signAndBody.1 * (n : ℚ))
  | [w, f] =>
    match parseDigits w, parseDigits f with
    | some n, some m => some (signAndBody.1 * ((n : ℚ) + (m : ℚ) / 10 ^ f.length))
    | _, _ => none
  | _ => none

/- Python call binding for a call site supplying nPos positional arguments and
the listed keyword names against a callee whose parameters are params (in
order), of which the first required ones have no default. Binding succeeds
exactly when no parameter is assigned twice, every keyword names a parameter,
and every required parameter receives a value; otherwise Python raises
TypeError before the callee body runs. -/
def callBindsOk (params : List String) (required nPos : ℕ) (kw : List String) : Bool :=
  decide (nPos ≤ params.length) &&
  kw.all params.contains &&
  kw.all (fun k => !((params.take nPos).contains k)) &&
  (params.take required).all (fun p => (params.take nPos).contains p || kw.contains p)

/- Parameters of trade_notifier.log_trade_exit (src/trade_notifier.py line 90):
def log_trade_exit(symbol, order_id, filled_price, reason="Normal Exit", interval="1m").
The first three have no default. -/
def logTradeExitParams : List String :=
  ["symbol", "order_id", "filled_price", "reason", "interval"]

structure UserTrade where
  price : ℚ
  qty : ℚ
  realizedPnl : ℚ
deriving DecidableEq

/- Exit notifications app.finalize_trade (src/app.py lines 180-281) sends, as a
function of the userTrades fetch outcome. A non-200 fetch or empty fill list
returns after cleanup with nothing sent. Otherwise the flow reaches the call
on line 271, log_trade_exit(symbol, filled_price, pnl, pnl_percent,
reason=reason, interval=interval, order_id=order_id): four positional
arguments plus keywords reason, interval, order_id, bound against
logTradeExitParams with three required parameters. A failed binding raises
TypeError, which the surrounding except catches after sending nothing. -/
def finalizeTradeNotifCount (status : ℕ) (tradeData : List UserTrade) : ℕ :=
  if status ≠ 200 then 0
  else if tradeData.isEmpty then 0
  else if callBindsOk logTradeExitParams 3 4 ["reason", "interval", "order_id"] then 1
  else 0

/- The LOT_SIZE filter of a symbol as returned by the exchangeInfo endpoint
(src/app.py lines 99-100). -/
structure LotSizeFilter where
  stepSize : ℚ
  minQty : ℚ
deriving DecidableEq

/- Embedding of app.round_quantity (src/app.py lines 95-109). The symbol's
LOT_SIZE filter is the function's environment; none models get_symbol_info
finding no entry for the symbol, in which case the source returns
round(qty, 3). int(qty / step_size) truncates toward zero; a zero step makes
that division raise, and the except branch sets qty = float(step_size).
The aligned value is clamped up to minQty and returned through round(., 8). -/
def round_quantity (info : Option LotSizeFilter) (qty : ℚ) : ℚ :=
  match info with
  | none => pyRound qty 3
  | some f =>
    let q1 := if f.stepSize = 0 then f.stepSize else (pyInt (qty / f.stepSize) : ℚ) * f.stepSize
    let q2 := if q1 < f.minQty then f.minQty else q1
    pyRound q2 8

/- One entry of the positionRisk response (src/app.py get_position_info). -/
structure Position where
  positionAmt : ℚ
  unRealizedProfit : ℚ
deriving DecidableEq

/- Outcome of the signed positionRisk query made by count_active_trades:
failure covers both a raised exception and the error-shaped dict that
binance_signed_request returns on a network failure. -/
inductive PositionsFetch
  | failure (msg : String)
  | ok (positions : List Position)

/- Embedding of app.count_active_trades (src/app.py lines 112-121): a failed
or error-shaped response counts 0; otherwise the positions with nonzero
positionAmt are counted. -/
def count_active_trades : PositionsFetch → ℕ
  | .failure _ => 0
  | .ok ps => (ps.filter (fun p => |p.positionAmt| > 0)).length

/- Embedding of trade_notifier.interval_to_seconds (src/trade_notifier.py
lines 184-189): lookup with default 60 on the lower-cased interval token. -/
def interval_to_seconds (interval : String) : ℕ :=
  let k := String.mk (interval.toList.map Char.toLower)
  if k = "1m" then 60 else if k = "3m" then 180 else if k = "5m" then 300
  else if k = "15m" then 900 else if k = "30m" then 1800
  else if k = "1h" then 3600 else if k = "2h" then 7200 else if k = "4h" then 14400
  else if k = "1d" then 86400 else 60

/- The timing fields the two-bar worker reads from the trade record
(src/app.py lines 412-413): bar_start_time is set at the entry alert,
entry_time at the observed fill; either may be absent. -/
structure TwoBarTiming where
  bar_start_time : Option ℚ
  entry_time : Option ℚ
deriving DecidableEq

/- start_time = bar_start_time or entry_time or time.time() (src/app.py line
415), where entry_time was read as trade.get("entry_time", time.time())
(line 413). Python `or` takes the first truthy operand, and a float is truthy
exactly when nonzero. -/
def twoBarStart (t : TwoBarTiming) (now : ℚ) : ℚ :=
  let entryTime := t.entry_time.getD now
  let second := if entryTime = 0 then now else entryTime
  match t.bar_start_time with
  | none => second
  | some b => if b = 0 then second else b

/- target = start_time + (2 * interval_seconds) (src/app.py line 418). -/
def twoBarTarget (t : TwoBarTiming) (now intervalSeconds : ℚ) : ℚ :=
  twoBarStart t now + 2 * intervalSeconds

/- Seconds the worker sleeps: remaining = target - now; time.sleep is called
only when remaining > 0 (src/app.py lines 419-422). -/
def twoBarSleepDuration (target now : ℚ) : ℚ :=
  let remaining := target - now
  if remaining > 0 then remaining else 0

/- The flag the two-bar worker re-reads after waking (src/app.py line 429). -/
structure TwoBarTrade where
  exit_signal_received : Bool
deriving DecidableEq

/- evaluate_exit_signal marks exit_signal_received = True on the record it
finds for the symbol (src/app.py lines 652-660) before attempting the close. -/
def markExitSignal (t : TwoBarTrade) : TwoBarTrade :=
  { t with exit_signal_received := true }

inductive Side
  | BUY
  | SELL
deriving DecidableEq

/- The externally visible action the two-bar worker takes after its sleep. -/
inductive TwoBarAction
  | noTrade
  | exitSignalSkip
  | cleanupFlat
  | forceMarketExit (side : Side)
  | hold
deriving DecidableEq

/- Whether the action submits a close order to the exchange. Only
forceMarketExit reaches execute_market_exit; every other branch returns
without placing an order. -/
def TwoBarAction.submitsClose : TwoBarAction → Bool
  | .forceMarketExit _ => true
  | _ => false

/- Post-sleep decision of app.two_bar_force_exit_worker (src/app.py lines
424-459): a missing record returns; an exit_signal_received flag returns; a
flat or missing exchange position cleans up local state; a negative
unRealizedProfit forces a market exit with the side derived from the position
sign; a non-negative unRealizedProfit keeps the position open. -/
def twoBarWake (trade : Option TwoBarTrade) (pos : Option Position) : TwoBarAction :=
  match trade with
  | none => .noTrade
  | some t =>
    if t.exit_signal_received then .exitSignalSkip
    else
      match pos with
      | none => .cleanupFlat
      | some p =>
        if |p.positionAmt| = 0 then .cleanupFlat
        else if p.unRealizedProfit < 0 then
          .forceMarketExit (if p.positionAmt > 0 then .BUY else .SELL)
        else .hold

/- Truthiness of an optional payload field as Python sees it: None and the
empty string are falsy, any other string truthy. -/
def truthyStr : Option String → Bool
  | none => false
  | some s => !s.isEmpty

/- How the CROSS/OPPOSITE/SAME-SIDE branch of app.webhook closes an open
position (src/app.py lines 728-749). -/
inductive CrossExitRoute
  | limitThenMarket
  | marketOnly
  | noPosition
deriving DecidableEq

/- Embedding of the routing decision: with an open position, the branch calls
execute_exit (which attempts a LIMIT order first) when
USE_BAR_HIGH_LOW_FOR_EXIT is set and both bar_high and bar_low are truthy
(src/app.py lines 740-743), and execute_market_exit otherwise; with no open
position it does nothing. -/
def crossExitRoute (useBarHL : Bool) (posAmt : ℚ) (barHigh barLow : Option String) :
    CrossExitRoute :=
  if |posAmt| > 0 then
    if useBarHL && truthyStr barHigh && truthyStr barLow then .limitThenMarket
    else .marketOnly
  else .noPosition

/- The guard under which execute_exit places a LIMIT order before falling back
to market (src/app.py line 319). -/
def executeExitAttemptsLimit (useBarHL : Bool) (barHigh barLow : Option String) : Bool :=
  useBarHL && truthyStr barHigh && truthyStr barLow

inductive OpenPosStatus
  | maxTradesReached
  | orderPlaced
  | orderRejected
deriving DecidableEq

/- Externally visible effects of one app.open_position call. -/
structure OpenPosTrace where
  status : OpenPosStatus
  closeOrderSubmitted : Bool
  entryOrderSubmitted : Bool
  ledgerEntryCreated : Bool
deriving DecidableEq

/- Embedding of app.open_position (src/app.py lines 468-555). existingAmt is
the positionAmt the exchange reports for the symbol (held fixed during the
call; 0 when flat), activeCount the count_active_trades() value at the
admission step, and entryAccepted whether the entry order response carries an
orderId. A nonzero existing position is market-closed first (lines 478-486),
before the admission check (lines 506-509); on rejection by the admission
check no entry order is placed and no ledger record survives the call. On a
rejected entry order the placeholder record is popped again (lines 550-553),
so ledgerEntryCreated records whether a record remains after the call. -/
def open_position (existingAmt : ℚ) (activeCount maxActive : ℕ) (entryAccepted : Bool) :
    OpenPosTrace :=
  let closeFirst := decide (|existingAmt| > 0)
  if activeCount ≥ maxActive then
    { status := .maxTradesReached, closeOrderSubmitted := closeFirst,
      entryOrderSubmitted := false, ledgerEntryCreated := false }
  else if entryAccepted then
    { status := .orderPlaced, closeOrderSubmitted := closeFirst,
      entryOrderSubmitted := true, ledgerEntryCreated := true }
  else
    { status := .orderRejected, closeOrderSubmitted := closeFirst,
      entryOrderSubmitted := true, ledgerEntryCreated := false }

/- INTERVAL_MAP lookup (src/app.py lines 28-33): unknown keys pass through. -/
def intervalMapLookup (k : String) : String :=
  if k = "1" then "1m" else if k = "3" then "3m" else if k = "5" then "5m"
  else if k = "15" then "15m" else if k = "30" then "30m"
  else if k = "60" then "1h" else if k = "120" then "2h" else if k = "240" then "4h"
  else if k = "1m" then "1m" else if k = "3m" then "3m" else if k = "5m" then "5m"
  else if k = "15m" then "15m" else if k = "30m" then "30m"
  else if k = "1h" then "1h" else if k = "2h" then "2h" else if k = "4h" then "4h"
  else if k = "1d" then "1d" else if k = "D" then "1d" else if k = "1D" then "1d"
  else k

def strLower (s : String) : String :=
  String.mk (s.toList.map Char.toLower)

/- Embedding of app.normalize_interval (src/app.py lines 36-40). -/
def normalize_interval (raw : Option String) : String :=
  match raw with
  | none => "1m"
  | some r => strLower (intervalMapLookup (String.mk (pyStrip r.toList)))

/- Embedding of app.trade_key (src/app.py lines 43-45). -/
def trade_key (symbol interval : String) : String :=
  symbol ++ "_" ++ strLower interval

/- ticker.replace("USDT", "") removes every non-overlapping occurrence of
USDT, scanning left to right, as Python str.replace does. -/
def removeUSDT : List Char → List Char
  | 'U' :: 'S' :: 'D' :: 'T' :: rest => removeUSDT rest
  | c :: rest => c :: removeUSDT rest
  | [] => []

/- symbol = ticker.replace("USDT", "") + "USDT" (src/app.py line 692). -/
def deriveSymbol (ticker : String) : String :=
  String.mk (removeUSDT ticker.toList) ++ "USDT"

/- The slice of a trades-dict record that the webhook's pre-routing touch
writes (src/app.py lines 696-699). -/
structure LedgerStub where
  interval : Option String
deriving DecidableEq

def Ledger : Type := String → Option LedgerStub

def emptyLedger : Ledger := fun _ => none

/- trades.setdefault(k, {}) followed by trades[k]["interval"] = interval
(src/app.py lines 696-699), restricted to the fields the stub tracks. -/
def ledgerTouch (L : Ledger) (key interval : String) : Ledger :=
  fun k => if k = key then some ⟨some interval⟩ else L k

/- The comment tokens app.webhook routes on (src/app.py lines 702, 728, 752). -/
def recognizedComment (c : String) : Bool :=
  c == "BUY_ENTRY" || c == "SELL_ENTRY" ||
  c == "CROSS_EXIT_SHORT" || c == "CROSS_EXIT_LONG" ||
  c == "OPPOSITE_EXIT" || c == "SAME_SIDE_EXIT" ||
  c == "EXIT_LONG" || c == "EXIT_SHORT" || c == "SIGNAL_EXIT"

inductive WebhookResponse
  | entryRouted (comment : String)
  | crossRouted
  | exitRouted
  | errorResp (msg : String)
deriving DecidableEq

/- Parse-and-route skeleton of app.webhook (src/app.py lines 679-761) over the
stripped pipe-separated parts. Returns the response and the ledger after the
handler's own pre-routing touch; the deeper effects of the routed handlers
(open_position, the cross and exit close paths) are modeled by their own
definitions above and are not repeated here. A failure to unpack the parts or
to convert close_price to float raises inside the handler's try, which answers
with an error body and leaves all state unchanged; the touch of lines 696-699
happens after the float conversion and before routing on the comment.

webhookUnpack embeds the unpacking of the stripped parts (src/app.py lines
684-689): six or more fields bind ticker, comment, close_price, bar_high,
bar_low, interval from the first six; otherwise ticker, comment, close_price
come from the first three fields and interval from the last one, with no bar
extremes; fewer than three fields raise IndexError (none). -/
def webhookUnpack (parts : List String) :
    Option (String × String × String × Option String × Option String × String) :=
  if parts.length ≥ 6 then
    match parts with
    | t :: c :: cp :: bh :: bl :: iv :: _ => some (t, c, cp, some bh, some bl, iv)
    | _ => none
  else
    match parts, parts.getLast? with
    | t :: c :: cp :: _, some iv => some (t, c, cp, none, none, iv)
    | _, _ => none

def webhookParts (L : Ledger) (parts : List String) : WebhookResponse × Ledger :=
  match webhookUnpack parts with
  | none => (.errorResp "IndexError", L)
  | some (ticker, comment, cp, _, _, ivraw) =>
    let interval := normalize_interval (some ivraw)
    let symbol := deriveSymbol ticker
    match parseDecimal cp with
    | none => (.errorResp "could not convert string to float", L)
    | some _ =>
      let key := trade_key symbol interval
      let L1 := ledgerTouch L key interval
      if comment == "BUY_ENTRY" || comment == "SELL_ENTRY" then
        (.entryRouted comment, L1)
      else if comment == "CROSS_EXIT_SHORT" || comment == "CROSS_EXIT_LONG" ||
              comment == "OPPOSITE_EXIT" || comment == "SAME_SIDE_EXIT" then
        (.crossRouted, L1)
      else if comment == "EXIT_LONG" || comment == "EXIT_SHORT" || comment == "SIGNAL_EXIT" then
        (.exitRouted, L1)
      else
        (.errorResp ("Unknown comment: " ++ comment), L1)

/- app.webhook applied to the raw request body: parts = the pipe-split,
stripped fields (src/app.py line 683). -/
def webhook (L : Ledger) (body : String) : WebhookResponse × Ledger :=
  webhookParts L ((pySplitOn '|' body.toList).map (fun cs => String.mk (pyStrip cs)))

/-! Helper lemmas about the Python rounding primitives. -/

theorem roundHalfEven_intCast (m : ℤ) : roundHalfEven (m : ℚ) = m := by
  unfold roundHalfEven
  norm_num

theorem pyRound_eq_self (x : ℚ) (k : ℕ) (m : ℤ) (h : x * 10 ^ k = m) : pyRound x k = x := by
  unfold pyRound
  rw [h, roundHalfEven_intCast, ← h, mul_div_assoc, div_self (by positivity), mul_one]

theorem pyInt_of_nonneg (x : ℚ) (h : 0 ≤ x) : pyInt x = ⌊x⌋ := by
  simp [pyInt, h]

/- On a nonnegative input, round_quantity with a positive 8-decimal step and an
8-decimal minimum reduces to the exact floor-align-then-clamp: the final
round(., 8) is the identity because both candidate results live on the
8-decimal grid. -/
theorem round_quantity_closed_form (f : LotSizeFilter) (x : ℚ) (hx : 0 ≤ x)
    (hstep : 0 < f.stepSize)
    (hs8 : ∃ a : ℤ, f.stepSize * 10 ^ 8 = a) (hm8 : ∃ b : ℤ, f.minQty * 10 ^ 8 = b) :
    round_quantity (some f) x =
      if (⌊x / f.stepSize⌋ : ℚ) * f.stepSize < f.minQty then f.minQty
      else (⌊x / f.stepSize⌋ : ℚ) * f.stepSize := by
  obtain ⟨a, ha⟩ := hs8
  obtain ⟨b, hb⟩ := hm8
  have hsne : f.stepSize ≠ 0 := ne_of_gt hstep
  have hdiv : 0 ≤ x / f.stepSize := div_nonneg hx hstep.le
  unfold round_quantity
  simp only [if_neg hsne, pyInt_of_nonneg _ hdiv]
  by_cases hcl : (⌊x / f.stepSize⌋ : ℚ) * f.stepSize < f.minQty
  · rw [if_pos hcl]
    exact pyRound_eq_self _ 8 b hb
  · rw [if_neg hcl]
    refine pyRound_eq_self _ 8 (⌊x / f.stepSize⌋ * a) ?_
    rw [mul_assoc, ha]
    push_cast
    ring

/-! Claim theorems. -/

/-- C1 (code_bug evidence): for a close order the exchange confirms filled
(userTrades fetch succeeds with a most-recent fill of price 100, qty 1,
realizedPnl 5), app.finalize_trade sends zero exit notifications, not exactly
one: the call on src/app.py line 271 cannot bind against
trade_notifier.log_trade_exit's parameters, because the fourth positional
argument already fills reason and the keywords reason and order_id assign
those parameters a second time, so Python raises TypeError and the except
handler swallows it after sending nothing. -/
theorem finalize_trade_sends_no_exit_notification :
    callBindsOk logTradeExitParams 3 4 ["reason", "interval", "order_id"] = false ∧
    finalizeTradeNotifCount 200 [⟨100, 1, 5⟩] = 0 :=
  ⟨by decide, by decide⟩

/-- C2 counterexample: with no exit signal recorded and the exchange reporting
an open position (positionAmt 1) whose unrealized P&L is +5, the woken two-bar
worker submits no market close — it holds the position — refuting the claim
that a close is submitted regardless of unrealized P&L. -/
theorem twoBar_holds_on_nonneg_pnl :
    (twoBarWake (some ⟨false⟩) (some ⟨1, 5⟩)).submitsClose = false := by
  decide

/-- C2 amended: when the two-bar worker wakes with no exit signal recorded and
an open exchange position, it submits a market close exactly when the
position's unrealized P&L is negative; when unrealized P&L is zero or
positive it keeps the position open and submits nothing. -/
theorem twoBar_force_exit_only_when_negative (t : TwoBarTrade) (p : Position)
    (hflag : t.exit_signal_received = false) (hopen : |p.positionAmt| ≠ 0) :
    (p.unRealizedProfit < 0 →
      twoBarWake (some t) (some p) =
        TwoBarAction.forceMarketExit (if p.positionAmt > 0 then Side.BUY else Side.SELL)) ∧
    (0 ≤ p.unRealizedProfit → twoBarWake (some t) (some p) = TwoBarAction.hold) := by
  unfold twoBarWake
  constructor
  · intro h
    simp [hflag, hopen, h]
  · intro h
    simp [hflag, hopen, not_lt.mpr h]

/-- Witness for C2's amended theorem at a concrete input: open long position
of 1 with unrealized P&L of -3 is force-closed with a BUY-side record. -/
theorem twoBar_force_exit_only_when_negative_witness :
    twoBarWake (some ⟨false⟩) (some ⟨1, -3⟩) =
      TwoBarAction.forceMarketExit (if (1 : ℚ) > 0 then Side.BUY else Side.SELL) :=
  (twoBar_force_exit_only_when_negative ⟨false⟩ ⟨1, -3⟩ rfl (by norm_num)).1 (by norm_num)

/-- C5: once an exit alert has marked exit_signal_received on the record the
two-bar worker reads (as evaluate_exit_signal does via markExitSignal), the
woken worker takes the exitSignalSkip branch and submits no close order,
whatever the exchange position looks like. -/
theorem exit_signal_suppresses_force_exit (t : TwoBarTrade) (pos : Option Position) :
    twoBarWake (some (markExitSignal t)) pos = TwoBarAction.exitSignalSkip ∧
    (twoBarWake (some (markExitSignal t)) pos).submitsClose = false := by
  unfold markExitSignal twoBarWake
  simp [TwoBarAction.submitsClose]

/-- C8: round_quantity is idempotent, on the no-symbol-info branch for every
raw quantity, and on the LOT_SIZE branch for every nonnegative raw quantity
and every exchange-well-formed filter (positive step size representable in at
most 8 decimal places, nonnegative minimum quantity representable in at most
8 decimal places, the format the exchangeInfo endpoint uses). -/
theorem round_quantity_idempotent (f : LotSizeFilter) (q q0 : ℚ) (hq : 0 ≤ q)
    (hstep : 0 < f.stepSize) (hmin : 0 ≤ f.minQty)
    (hs8 : ∃ a : ℤ, f.stepSize * 10 ^ 8 = a) (hm8 : ∃ b : ℤ, f.minQty * 10 ^ 8 = b) :
    round_quantity (some f) (round_quantity (some f) q) = round_quantity (some f) q ∧
    round_quantity none (round_quantity none q0) = round_quantity none q0 := by
  constructor
  · have hsne : f.stepSize ≠ 0 := ne_of_gt hstep
    rw [round_quantity_closed_form f q hq hstep hs8 hm8]
    by_cases hcl : (⌊q / f.stepSize⌋ : ℚ) * f.stepSize < f.minQty
    · rw [if_pos hcl]
      rw [round_quantity_closed_form f f.minQty hmin hstep hs8 hm8]
      by_cases h2 : (⌊f.minQty / f.stepSize⌋ : ℚ) * f.stepSize < f.minQty
      · rw [if_pos h2]
      · rw [if_neg h2]
        have hle : (⌊f.minQty / f.stepSize⌋ : ℚ) * f.stepSize ≤ f.minQty := by
          calc (⌊f.minQty / f.stepSize⌋ : ℚ) * f.stepSize
              ≤ f.minQty / f.stepSize * f.stepSize :=
                mul_le_mul_of_nonneg_right (Int.floor_le _) hstep.le
            _ = f.minQty := div_mul_cancel₀ _ hsne
        exact le_antisymm hle (not_lt.mp h2)
    · rw [if_neg hcl]
      have hmnn : (0 : ℚ) ≤ (⌊q / f.stepSize⌋ : ℚ) :=
        Int.cast_nonneg.mpr (Int.floor_nonneg.mpr (div_nonneg hq hstep.le))
      have hxnn : 0 ≤ (⌊q / f.stepSize⌋ : ℚ) * f.stepSize := mul_nonneg hmnn hstep.le
      rw [round_quantity_closed_form f _ hxnn hstep hs8 hm8]
      have hfl : ⌊(⌊q / f.stepSize⌋ : ℚ) * f.stepSize / f.stepSize⌋ = ⌊q / f.stepSize⌋ := by
        rw [mul_div_cancel_right₀ _ hsne, Int.floor_intCast]
      rw [hfl, if_neg hcl]
  · unfold round_quantity
    exact pyRound_eq_self _ 3 (roundHalfEven (q0 * 10 ^ 3))
      (by unfold pyRound; exact div_mul_cancel₀ _ (by positivity))

/-- Witness for C8 at a concrete input: step 0.001, minimum 0.01, raw
quantity 0.0035 (and 1/3 on the no-info branch). -/
theorem round_quantity_idempotent_witness :
    round_quantity (some ⟨1/1000, 1/100⟩)
        (round_quantity (some ⟨1/1000, 1/100⟩) (7/2000)) =
      round_quantity (some ⟨1/1000, 1/100⟩) (7/2000) :=
  (round_quantity_idempotent ⟨1/1000, 1/100⟩ (7/2000) (1/3) (by norm_num) (by norm_num)
    (by norm_num) ⟨100000, by norm_num⟩ ⟨1000000, by norm_num⟩).1

/-- C9: for every exchange-well-formed LOT_SIZE filter (positive 8-decimal
step, 8-decimal minimum) and every nonnegative raw quantity, round_quantity
never returns a value below the instrument's minimum quantity, even when the
raw input is smaller than that minimum. -/
theorem round_quantity_min_clamp (f : LotSizeFilter) (q : ℚ) (hq : 0 ≤ q)
    (hstep : 0 < f.stepSize)
    (hs8 : ∃ a : ℤ, f.stepSize * 10 ^ 8 = a) (hm8 : ∃ b : ℤ, f.minQty * 10 ^ 8 = b) :
    f.minQty ≤ round_quantity (some f) q := by
  rw [round_quantity_closed_form f q hq hstep hs8 hm8]
  split
  · exact le_refl _
  · next h => exact le_of_not_lt h

/-- Witness for C9: raw quantity 0.002 is below the minimum 0.01 of a filter
with step 0.001, and the returned quantity is still at least the minimum. -/
theorem round_quantity_min_clamp_witness :
    (1 : ℚ)/100 ≤ round_quantity (some ⟨1/1000, 1/100⟩) (1/500) :=
  round_quantity_min_clamp ⟨1/1000, 1/100⟩ (1/500) (by norm_num) (by norm_num)
    ⟨100000, by norm_num⟩ ⟨1000000, by norm_num⟩

/-- C3 counterexample: a filled trade whose record carries bar_start_time 1000
(recorded at the entry alert) and entry_time 1050 (recorded when the fill was
observed) has wake-up target 1000 + 2*60 = 1120, not entryTime + 2*60 = 1170,
refuting that the wake-up time equals entryTime plus two intervals. -/
theorem twoBar_target_not_entry_time :
    twoBarTarget ⟨some 1000, some 1050⟩ 1050 60 ≠ 1050 + 2 * 60 := by
  norm_num [twoBarTarget, twoBarStart]

/-- C3 amended: the worker's wake-up target is bar_start_time + 2*intervalSeconds
whenever a nonzero bar_start_time was recorded at the entry alert, and
entry_time + 2*intervalSeconds only as fallback when bar_start_time is absent;
in either form, when the target is already past the worker does not sleep. -/
theorem twoBar_target_time (b e now isec : ℚ) (hb : b ≠ 0) (he : e ≠ 0) :
    twoBarTarget ⟨some b, some e⟩ now isec = b + 2 * isec ∧
    twoBarTarget ⟨none, some e⟩ now isec = e + 2 * isec ∧
    (twoBarTarget ⟨some b, some e⟩ now isec ≤ now →
      twoBarSleepDuration (twoBarTarget ⟨some b, some e⟩ now isec) now = 0) := by
  refine ⟨?_, ?_, ?_⟩
  · simp [twoBarTarget, twoBarStart, hb]
  · simp [twoBarTarget, twoBarStart, he]
  · intro h
    unfold twoBarSleepDuration
    exact if_neg (not_lt.mpr (sub_nonpos.mpr h))

/-- Witness for C3's amended theorem: bar_start_time 1000, entry fill at 1050,
a one-minute interval, and the worker starting at 2000, past the 1120 target,
sleeps zero seconds. -/
theorem twoBar_target_time_witness :
    twoBarTarget ⟨some 1000, some 1050⟩ 2000 60 = 1000 + 2 * 60 ∧
    twoBarSleepDuration (twoBarTarget ⟨some 1000, some 1050⟩ 2000 60) 2000 = 0 :=
  ⟨(twoBar_target_time 1000 1050 2000 60 (by norm_num) (by norm_num)).1,
   (twoBar_target_time 1000 1050 2000 60 (by norm_num) (by norm_num)).2.2
     (by norm_num [twoBarTarget, twoBarStart])⟩

/-- C4 counterexample: with USE_BAR_HIGH_LOW_FOR_EXIT enabled (its config.py
default) and a six-field payload supplying both bar extremes, a cross-exit
signal on an open position is routed through execute_exit, which attempts a
LIMIT order first — refuting that these signals always submit a market close
directly. -/
theorem cross_exit_attempts_limit :
    crossExitRoute true 1 (some "50100") (some "49900") = CrossExitRoute.limitThenMarket ∧
    executeExitAttemptsLimit true (some "50100") (some "49900") = true :=
  ⟨by decide, by decide⟩

/-- C4 amended: with an open position, cross/opposite/same-side signals submit
a market close directly exactly when the bar-extreme limit path is unavailable
(USE_BAR_HIGH_LOW_FOR_EXIT disabled, or bar_high or bar_low missing or empty);
when the configuration and payload provide both extremes they take the same
limit-then-market path as ordinary exit signals, attempting a limit first. -/
theorem cross_exit_route_policy (useBarHL : Bool) (posAmt : ℚ) (bh bl : Option String)
    (hopen : |posAmt| > 0) :
    ((useBarHL && truthyStr bh && truthyStr bl) = false →
      crossExitRoute useBarHL posAmt bh bl = CrossExitRoute.marketOnly) ∧
    ((useBarHL && truthyStr bh && truthyStr bl) = true →
      crossExitRoute useBarHL posAmt bh bl = CrossExitRoute.limitThenMarket ∧
      executeExitAttemptsLimit useBarHL bh bl = true) := by
  unfold crossExitRoute executeExitAttemptsLimit
  rw [if_pos hopen]
  constructor <;> intro h <;> simp [h]

/-- Witness for C4's amended theorem: bar-extreme exits disabled and no bar
fields supplied, an open position of 2 is closed with a direct market order. -/
theorem cross_exit_route_policy_witness :
    crossExitRoute false 2 none none = CrossExitRoute.marketOnly :=
  (cross_exit_route_policy false 2 none none (by norm_num)).1 (by decide)

/-- C6 counterexample: with a pre-existing exchange position (positionAmt 1)
and the admission step seeing 5 open positions against a maximum of 5,
open_position returns max_trades_reached but a market close order has been
submitted during the same call — refuting that no order is submitted. -/
theorem max_trades_with_close_order :
    (open_position 1 5 5 true).status = OpenPosStatus.maxTradesReached ∧
    (open_position 1 5 5 true).closeOrderSubmitted = true :=
  ⟨by decide, by decide⟩

/-- C6 amended: whenever the admission step sees at least MAX_ACTIVE_TRADES
open positions, open_position returns the max_trades_reached status, submits
no new entry order, and leaves no new ledger record; a market close order was
submitted earlier in the same call exactly when a pre-existing exchange
position for the symbol was detected before the admission check. -/
theorem max_trades_rejection (existingAmt : ℚ) (cnt maxA : ℕ) (acc : Bool)
    (h : cnt ≥ maxA) :
    (open_position existingAmt cnt maxA acc).status = OpenPosStatus.maxTradesReached ∧
    (open_position existingAmt cnt maxA acc).entryOrderSubmitted = false ∧
    (open_position existingAmt cnt maxA acc).ledgerEntryCreated = false ∧
    (open_position existingAmt cnt maxA acc).closeOrderSubmitted =
      decide (|existingAmt| > 0) := by
  simp only [open_position]
  rw [if_pos h]
  exact ⟨rfl, rfl, rfl, rfl⟩

/-- Witness for C6's amended theorem with no pre-existing position: rejection
with no order of any kind and no surviving ledger record. -/
theorem max_trades_rejection_witness :
    (open_position 0 5 5 true).status = OpenPosStatus.maxTradesReached ∧
    (open_position 0 5 5 true).entryOrderSubmitted = false ∧
    (open_position 0 5 5 true).ledgerEntryCreated = false ∧
    (open_position 0 5 5 true).closeOrderSubmitted = decide (|(0 : ℚ)| > 0) :=
  max_trades_rejection 0 5 5 true (by decide)

/-- C10: a failed or error-shaped positionRisk response makes
count_active_trades return 0, so with a positive configured maximum the
admission check passes and open_position cannot return max_trades_reached
while the query keeps failing. -/
theorem outage_admission_always_passes (msg : String) (existingAmt : ℚ) (maxA : ℕ)
    (acc : Bool) (hmax : 0 < maxA) :
    count_active_trades (PositionsFetch.failure msg) = 0 ∧
    (open_position existingAmt (count_active_trades (PositionsFetch.failure msg)) maxA
        acc).status ≠ OpenPosStatus.maxTradesReached := by
  refine ⟨rfl, ?_⟩
  simp only [count_active_trades, open_position]
  rw [if_neg (by omega : ¬ 0 ≥ maxA)]
  cases acc <;> simp

/-- Witness for C10 at the default configuration maximum of 5. -/
theorem outage_admission_always_passes_witness :
    count_active_trades (PositionsFetch.failure "timeout") = 0 ∧
    (open_position 0 (count_active_trades (PositionsFetch.failure "timeout")) 5
        true).status ≠ OpenPosStatus.maxTradesReached :=
  outage_admission_always_passes "timeout" 0 5 true (by decide)

/-- C7 counterexample: the payload BTCUSDT|HELLO|100|1m carries an
unrecognized comment; the dispatcher answers with an error body, yet the trade
ledger is not left unchanged — a record for BTCUSDT_1m now exists where the
ledger was empty before, because webhook touches the ledger before routing on
the comment. -/
theorem unknown_comment_mutates_ledger :
    (webhook emptyLedger "BTCUSDT|HELLO|100|1m").1 =
      WebhookResponse.errorResp ("Unknown comment: " ++ "HELLO") ∧
    (webhook emptyLedger "BTCUSDT|HELLO|100|1m").2 "BTCUSDT_1m" = some ⟨some "1m"⟩ ∧
    emptyLedger "BTCUSDT_1m" = none :=
  ⟨by decide, by decide, rfl⟩

/-- C7 amended: for every payload the dispatcher parses — any parts list that
webhookUnpack accepts, covering both the six-or-more-field form and the
three-to-five-field fallback form — whose comment field is none of the
recognized entry/exit tokens, the dispatcher returns the Unknown-comment
error response without routing to any handler, and the trade ledger is
changed only by the pre-routing touch: the record at trade_key(symbol,
interval) is created if absent and its interval field set, every other
ledger key being untouched (ledgerTouch is pointwise the identity
elsewhere). -/
theorem unknown_comment_error_and_touch (L : Ledger) (parts : List String)
    (t c cp : String) (bh bl : Option String) (iv : String)
    (hu : webhookUnpack parts = some (t, c, cp, bh, bl, iv))
    (hp : (parseDecimal cp).isSome = true) (hc : recognizedComment c = false) :
    webhookParts L parts =
      (WebhookResponse.errorResp ("Unknown comment: " ++ c),
       ledgerTouch L (trade_key (deriveSymbol t) (normalize_interval (some iv)))
         (normalize_interval (some iv))) := by
  have h := hc
  simp only [recognizedComment, Bool.or_eq_false_iff] at h
  obtain ⟨⟨⟨⟨⟨⟨⟨⟨h1, h2⟩, h3⟩, h4⟩, h5⟩, h6⟩, h7⟩, h8⟩, h9⟩ := h
  rw [Option.isSome_iff_exists] at hp
  obtain ⟨p, hp⟩ := hp
  simp [webhookParts, hu, hp, h1, h2, h3, h4, h5, h6, h7, h8, h9]

/-- Witness for C7's amended theorem at both payload shapes: a six-field
parts list with the unrecognized comment FOO, and a four-field fallback
parts list (no bar extremes, interval taken from the last field) with the
unrecognized comment BAR_SIGNAL. -/
theorem unknown_comment_error_and_touch_witness :
    webhookParts emptyLedger ["BTCUSDT", "FOO", "100", "50100", "49900", "1m"] =
      (WebhookResponse.errorResp ("Unknown comment: " ++ "FOO"),
       ledgerTouch emptyLedger
         (trade_key (deriveSymbol "BTCUSDT") (normalize_interval (some "1m")))
         (normalize_interval (some "1m"))) ∧
    webhookParts emptyLedger ["ETHUSDT", "BAR_SIGNAL", "2500", "5m"] =
      (WebhookResponse.errorResp ("Unknown comment: " ++ "BAR_SIGNAL"),
       ledgerTouch emptyLedger
         (trade_key (deriveSymbol "ETHUSDT") (normalize_interval (some "5m")))
         (normalize_interval (some "5m"))) :=
  ⟨unknown_comment_error_and_touch emptyLedger
      ["BTCUSDT", "FOO", "100", "50100", "49900", "1m"]
      "BTCUSDT" "FOO" "100" (some "50100") (some "49900") "1m"
      (by decide) (by decide) (by decide),
   unknown_comment_error_and_touch emptyLedger
      ["ETHUSDT", "BAR_SIGNAL", "2500", "5m"]
      "ETHUSDT" "BAR_SIGNAL" "2500" none none "5m"
      (by decide) (by decide) (by decide)⟩
